import Mathlib

/-!
# Shallow embedding of `viewview.py`

The program drives a browser to "watch" a livestream on one of two platforms
(kick, twitch).  External effects (HTTP, browser automation, logging, sleeping)
are modelled by oracles supplied in an environment record, and every run
returns its result together with the list of observable events it produced.

The retry decorator `retry_on_exception` delegates to the `tenacity` library
(`stop_after_attempt`, `wait_exponential`, default `reraise=False` /
`retry_error_cls=RetryError`); those library semantics are embedded below
following tenacity 8.2.2.
-/

namespace ViewView

/-- The two platforms of `StreamPlatformConfig.platform`
(`Literal["twitch", "kick"]`). -/
inductive StreamPlatform where
  | twitch
  | kick
deriving Repr, DecidableEq

/-- The Python exception values that can flow through the program:
`StreamViewerException` (the program's domain error), `tenacity.RetryError`
(wrapping the final attempt's exception), `requests.RequestException`
(transport errors and `HTTPError` from `raise_for_status`), and arbitrary
other exceptions, e.g. from the browser-automation library. -/
inductive PyExc where
  | streamViewerException (msg : String)
  | retryError (last : PyExc)
  | requestException (msg : String)
  | otherError (msg : String)
deriving Repr, DecidableEq

/-- Python `str(e)` on an exception value, used when the retry wrapper
interpolates the caught exception into its messages. -/
def pyStr : PyExc → String
  | .streamViewerException m => m
  | .retryError e => "RetryError: " ++ pyStr e
  | .requestException m => m
  | .otherError m => m

/-- Observable events of a run: browser-automation calls, HTTP requests,
sleeps and log output, in program order. -/
inductive Ev where
  | sbCreate
  | infoAttempt (p : StreamPlatform)
  | openPrimary (url : String) (reconnect : Nat)
  | openSecondary (url : String) (reconnect : Nat)
  | newDriver
  | sleep (seconds : Nat)
  | clickCaptcha
  | handleCaptchaGui
  | checkAccept (present : Bool)
  | clickAccept
  | checkPlayerVisible (visible : Bool)
  | httpGet (url : String) (clientId : String)
  | logError (msg : String)
  | quitExtraDriver
  | cleanupRun
  | closePrimary
deriving Repr, DecidableEq

/-- Models `urllib.parse.urljoin(base, url)` for the only shapes this program
builds: an absolute base URL whose path ends in `/` joined with a bare
user name, where the join is plain concatenation. -/
def urljoin (base rest : String) : String := base ++ rest

/-- The frozen dataclass `StreamPlatformConfig`. -/
structure StreamPlatformConfig where
  platform : StreamPlatform
  base_url : String
  username : String
deriving Repr, DecidableEq

/-- The `stream_url` property: `urljoin(self.base_url, self.username)`. -/
def StreamPlatformConfig.stream_url (c : StreamPlatformConfig) : String :=
  urljoin c.base_url c.username

/-- The frozen dataclass `TwitchConfig` with its hard-coded defaults. -/
structure TwitchConfig where
  client_id : String := "kimne78kx3ncx6brgo4mv6wki5h1ko"
  live_indicator : String := "isLiveBroadcast"
deriving Repr, DecidableEq

/-! ## The retry decorator and its tenacity semantics -/

/-- `tenacity._utils.MAX_WAIT = sys.maxsize / 2`; as the Python float this
expression produces, the value is exactly `2 ^ 62`. -/
def MAX_WAIT : Nat := 2 ^ 62

/-- `tenacity.wait_exponential(multiplier, max, exp_base=2, min)` evaluated
after attempt number `n`: tenacity computes
`multiplier * 2 ** (attempt_number - 1)` and clamps it into `[min, max]`
(`max(max(0, min), min(result, max))`; the inner `max 0` is vacuous over `Nat`). -/
def waitExponential (multiplier minW maxW n : Nat) : Nat :=
  max minW (min (multiplier * 2 ^ (n - 1)) maxW)

/-- The message the wrapper in `retry_on_exception` gives the
`StreamViewerException` it raises:
`f"Failed after {max_attempts} attempts: {str(e)}"`. -/
def failMsg (max_attempts : Nat) (e : String) : String :=
  "Failed after " ++ toString max_attempts ++ " attempts: " ++ e

/-- The result of a `retry_on_exception`-wrapped call: the value or the
escaping exception, the number of invocations of the underlying operation,
the inter-attempt delays tenacity slept, and the events of all attempts. -/
structure RetryResult (α : Type) where
  result : Except PyExc α
  calls : Nat
  delays : List Nat
  events : List Ev
deriving Repr

/-- One execution of the wrapper body in `retry_on_exception`: call the
underlying operation; on any exception `e`, log
`f"Error in {func.__name__}: {str(e)}"` and raise
`StreamViewerException(failMsg max_attempts (str e))`. -/
def wrapperAttempt {α : Type} (fnName : String) (max_attempts : Nat)
    (op : Nat → Except PyExc α × List Ev) (n : Nat) : Except PyExc α × List Ev :=
  match op n with
  | (.ok v, evs) => (.ok v, evs)
  | (.error e, evs) =>
      (.error (.streamViewerException (failMsg max_attempts (pyStr e))),
       evs ++ [Ev.logError ("Error in " ++ fnName ++ ": " ++ pyStr e)])

/-- tenacity's `Retrying` loop with `stop=stop_after_attempt(max_attempts)`,
`wait=wait_exponential(multiplier=wait_seconds, min=wait_seconds)` and the
defaults `retry=retry_if_exception_type()` (retry on any exception) and
`reraise=False` (raise `RetryError(last_attempt)` once the stop condition
holds).  `n` is the current attempt number (starting at 1); the stop condition
is checked after a failed attempt, and the wait is computed before
`attempt_number` is incremented.  `fuel` bounds the recursion; callers pass
`max_attempts + 1`, which the loop never exhausts because it stops as soon as
`max_attempts ≤ n`. -/
def retryLoop {α : Type} (fnName : String) (max_attempts wait_seconds : Nat)
    (op : Nat → Except PyExc α × List Ev) : Nat → Nat → RetryResult α
  | _, 0 => ⟨.error (.otherError "out of fuel"), 0, [], []⟩
  | n, fuel + 1 =>
    match wrapperAttempt fnName max_attempts op n with
    | (.ok v, evs) => ⟨.ok v, 1, [], evs⟩
    | (.error e, evs) =>
      if max_attempts ≤ n then
        ⟨.error (.retryError e), 1, [], evs⟩
      else
        let d := waitExponential wait_seconds wait_seconds MAX_WAIT n
        let rest := retryLoop fnName max_attempts wait_seconds op (n + 1) fuel
        ⟨rest.result, rest.calls + 1, d :: rest.delays, evs ++ rest.events⟩

/-- `retry_on_exception(max_attempts, wait_seconds)` applied to an operation
(the decorator's defaults in the source are `max_attempts=3`,
`wait_seconds=2`). -/
def retry_on_exception {α : Type} (fnName : String) (max_attempts wait_seconds : Nat)
    (op : Nat → Except PyExc α × List Ev) : RetryResult α :=
  retryLoop fnName max_attempts wait_seconds op 1 (max_attempts + 1)

/-! ## HTTP model and the twitch liveness check -/

/-- Outcome of one HTTP GET as seen by `requests.get`: either a response
(final status and body text) or a raised transport error
(`requests.RequestException`: connection error, timeout, ...). -/
inductive HttpOutcome where
  | response (status : Nat) (body : String)
  | transportError (msg : String)
deriving Repr, DecidableEq

/-- Python's `needle in haystack` substring test on strings. -/
def strContains (haystack needle : String) : Bool :=
  decide (needle.toList <:+: haystack.toList)

/-- The URL `check_twitch_stream` builds: `f"https://www.twitch.tv/{username}"`. -/
def twitchStreamUrl (username : String) : String :=
  "https://www.twitch.tv/" ++ username

/-- `requests.get(url, headers, timeout=10)` followed by
`response.raise_for_status()`: a transport failure raises a
`RequestException`; a status in `[400, 600)` makes `raise_for_status` raise
`requests.HTTPError`, a subclass of `RequestException`; any other status
returns the response. -/
def requestsGetRaiseForStatus (http : String → HttpOutcome) (url : String) :
    Except PyExc (Nat × String) :=
  match http url with
  | .transportError m => .error (.requestException m)
  | .response status body =>
      if 400 ≤ status ∧ status < 600 then
        .error (.requestException ("HTTPError " ++ toString status))
      else .ok (status, body)

/-- The body of `check_twitch_stream` (the function under the
`@retry_on_exception()` decorator): GET the hard-coded twitch URL with the
`Client-ID` header, raise for status, and report whether the configured
live indicator occurs in the body; the `except RequestException` clause
catches exactly the `RequestException` errors, logs them and returns
`False`. -/
def check_twitch_stream_body (http : String → HttpOutcome) (username : String)
    (tc : TwitchConfig) : Except PyExc Bool × List Ev :=
  let url := twitchStreamUrl username
  match requestsGetRaiseForStatus http url with
  | .ok (_, body) =>
      (.ok (strContains body tc.live_indicator), [Ev.httpGet url tc.client_id])
  | .error (.requestException m) =>
      (.ok false, [Ev.httpGet url tc.client_id,
                   Ev.logError ("Failed to check Twitch stream status: " ++ m)])
  | .error e => (.error e, [Ev.httpGet url tc.client_id])

/-- `check_twitch_stream` as callers see it: the body wrapped by
`@retry_on_exception()` with the decorator's defaults. -/
def check_twitch_stream (http : String → HttpOutcome) (username : String)
    (tc : TwitchConfig) : RetryResult Bool :=
  retry_on_exception "check_twitch_stream" 3 2
    (fun _ => check_twitch_stream_body http username tc)

/-! ## The browser session driver -/

/-- The mutable state of a `StreamViewer` instance (`self.browser`,
`self.secondary_browser`, both `None` in `__init__`). -/
structure StreamViewer where
  browser : Option Unit := none
  secondary_browser : Option Unit := none
deriving Repr, DecidableEq

/-- Oracle for one `handle_captcha_and_consent` run on one browser session:
the outcomes of the two captcha calls, whether the Accept button is present
(`is_element_present`), and the outcome of clicking it. -/
structure CaptchaEnv where
  clickCaptchaOutcome : Except PyExc Unit
  handleCaptchaOutcome : Except PyExc Unit
  acceptPresent : Bool
  clickAcceptOutcome : Except PyExc Unit
deriving Repr

/-- Oracle for one `watch_stream` run: outcomes of entering the `SB` context,
the primary navigation, the primary and secondary captcha sequences, the HTTP
layer, the visibility of `#injected-channel-player` at the k-th check, and
the secondary-session creation and navigation. -/
structure WatchEnv where
  sbEnter : Except PyExc Unit
  navPrimary : Except PyExc Unit
  primaryCaptcha : CaptchaEnv
  http : String → HttpOutcome
  playerVisible : Nat → Bool
  newDriverOutcome : Except PyExc Unit
  navSecondary : Except PyExc Unit
  secondaryCaptcha : CaptchaEnv

/-- `handle_captcha_and_consent(browser, reconnect_time)`: sleep 1, the two
captcha calls, sleep `reconnect_time` (default 4), then click the Accept
button if `is_element_present` finds it. -/
def handle_captcha_and_consent (ce : CaptchaEnv) (reconnect_time : Nat) :
    Except PyExc Unit × List Ev :=
  let e1 := [Ev.sleep 1, Ev.clickCaptcha]
  match ce.clickCaptchaOutcome with
  | .error ex => (.error ex, e1)
  | .ok _ =>
    let e2 := e1 ++ [Ev.handleCaptchaGui]
    match ce.handleCaptchaOutcome with
    | .error ex => (.error ex, e2)
    | .ok _ =>
      let e3 := e2 ++ [Ev.sleep reconnect_time, Ev.checkAccept ce.acceptPresent]
      if ce.acceptPresent then
        match ce.clickAcceptOutcome with
        | .error ex => (.error ex, e3 ++ [Ev.clickAccept])
        | .ok _ => (.ok (), e3 ++ [Ev.clickAccept])
      else (.ok (), e3)

/-- `_initialize_stream_viewing`: `uc_open_with_reconnect(stream_url, 4)`
then `handle_captcha_and_consent(browser)` with the default settle time. -/
def _initialize_stream_viewing (env : WatchEnv) (cfg : StreamPlatformConfig) :
    Except PyExc Unit × List Ev :=
  match env.navPrimary with
  | .error ex => (.error ex, [Ev.openPrimary cfg.stream_url 4])
  | .ok _ =>
    let (r, evs) := handle_captcha_and_consent env.primaryCaptcha 4
    (r, Ev.openPrimary cfg.stream_url 4 :: evs)

/-- `_setup_secondary_viewer`: `get_new_driver(undetectable=True)` (the
assignment to `self.secondary_browser` happens only if the call returns),
`uc_open_with_reconnect(stream_url, 5)` on the new driver, then the same
`handle_captcha_and_consent` sequence on it. -/
def _setup_secondary_viewer (st : StreamViewer) (env : WatchEnv)
    (cfg : StreamPlatformConfig) : Except PyExc Unit × List Ev × StreamViewer :=
  match env.newDriverOutcome with
  | .error ex => (.error ex, [Ev.newDriver], st)
  | .ok _ =>
    let st' := { st with secondary_browser := some () }
    match env.navSecondary with
    | .error ex => (.error ex, [Ev.newDriver, Ev.openSecondary cfg.stream_url 5], st')
    | .ok _ =>
      let (r, evs) := handle_captcha_and_consent env.secondaryCaptcha 4
      (r, Ev.newDriver :: Ev.openSecondary cfg.stream_url 5 :: evs, st')

/-- The `while self.browser.is_element_visible('#injected-channel-player'):
self.browser.sleep(10)` loop of `_watch_kick_stream`, checking visibility at
indices `k, k+1, ...`.  `none` models the loop still running when the fuel is
exhausted (the Python loop simply does not terminate while the element stays
visible). -/
def pollLoop (vis : Nat → Bool) : Nat → Nat → Option (List Ev)
  | _, 0 => none
  | k, fuel + 1 =>
    if vis k then
      (pollLoop vis (k + 1) fuel).map
        (fun evs => Ev.checkPlayerVisible true :: Ev.sleep 10 :: evs)
    else some [Ev.checkPlayerVisible false]

/-- `_watch_kick_stream`: if the player element is visible, set up the
secondary viewer and poll until the element is no longer visible. -/
def _watch_kick_stream (st : StreamViewer) (env : WatchEnv)
    (cfg : StreamPlatformConfig) (fuel : Nat) :
    Option (Except PyExc Unit × List Ev × StreamViewer) :=
  if env.playerVisible 0 then
    match _setup_secondary_viewer st env cfg with
    | (.error ex, evs, st') =>
        some (.error ex, Ev.checkPlayerVisible true :: evs, st')
    | (.ok _, evs, st') =>
        (pollLoop env.playerVisible 1 fuel).map
          (fun pevs => (.ok (), Ev.checkPlayerVisible true :: evs ++ pevs, st'))
  else some (.ok (), [Ev.checkPlayerVisible false], st)

/-- `_watch_twitch_stream`: build a fresh default `TwitchConfig`, run the
(retry-wrapped) `check_twitch_stream`, and set up the secondary viewer if it
returned `True`.  There is no polling loop on this branch. -/
def _watch_twitch_stream (st : StreamViewer) (env : WatchEnv)
    (cfg : StreamPlatformConfig) : Except PyExc Unit × List Ev × StreamViewer :=
  let tc : TwitchConfig := {}
  let chk := check_twitch_stream env.http cfg.username tc
  match chk.result with
  | .error ex => (.error ex, chk.events, st)
  | .ok live =>
    if live then
      let (r, evs, st') := _setup_secondary_viewer st env cfg
      (r, chk.events ++ evs, st')
    else (.ok (), chk.events, st)

/-- `_cleanup`: if a secondary browser exists, quit it and reset the handle
to `None`; the `cleanupRun` event marks each execution of `_cleanup`. -/
def _cleanup (st : StreamViewer) : List Ev × StreamViewer :=
  match st.secondary_browser with
  | some _ => ([Ev.cleanupRun, Ev.quitExtraDriver],
               { st with secondary_browser := none })
  | none => ([Ev.cleanupRun], st)

/-- The `try` block of `watch_stream`: enter the `SB` context (binding
`self.browser`), log the attempt, initialize the session, then branch on the
platform.  The context manager closes the primary browser on every exit of
the `with` block, including exceptional ones.  `none` models the kick poll
loop still running when the fuel is exhausted. -/
def watch_body (st : StreamViewer) (env : WatchEnv) (cfg : StreamPlatformConfig)
    (fuel : Nat) : Option (Except PyExc Unit × List Ev × StreamViewer) :=
  match env.sbEnter with
  | .error ex => some (.error ex, [Ev.sbCreate], st)
  | .ok _ =>
    let st0 := { st with browser := some () }
    let evs0 := [Ev.sbCreate, Ev.infoAttempt cfg.platform]
    match _initialize_stream_viewing env cfg with
    | (.error ex, ievs) => some (.error ex, evs0 ++ ievs ++ [Ev.closePrimary], st0)
    | (.ok _, ievs) =>
      match cfg.platform with
      | .kick =>
          (_watch_kick_stream st0 env cfg fuel).map
            (fun x => (x.1, evs0 ++ ievs ++ x.2.1 ++ [Ev.closePrimary], x.2.2))
      | .twitch =>
          let (r, tevs, st') := _watch_twitch_stream st0 env cfg
          some (r, evs0 ++ ievs ++ tevs ++ [Ev.closePrimary], st')

/-- `watch_stream`: the `try` block above, an `except` clause that logs any
exception and re-raises it, and a `finally` clause that always runs
`_cleanup` (after the log, before the exception propagates). -/
def watch_stream (st : StreamViewer) (env : WatchEnv) (cfg : StreamPlatformConfig)
    (fuel : Nat) : Option (Except PyExc Unit × List Ev × StreamViewer) :=
  match watch_body st env cfg fuel with
  | none => none
  | some (r, evs, st1) =>
    let (cevs, st2) := _cleanup st1
    match r with
    | .ok _ => some (.ok (), evs ++ cevs, st2)
    | .error ex =>
        some (.error ex,
              evs ++ [Ev.logError ("Error during stream viewing: " ++ pyStr ex)] ++ cevs,
              st2)

/-! ## The entry point -/

/-- The hard-coded kick target of `main`. -/
def kick_config : StreamPlatformConfig :=
  { platform := .kick, base_url := "https://kick.com/", username := "brutalles" }

/-- The hard-coded twitch target of `main`. -/
def twitch_config : StreamPlatformConfig :=
  { platform := .twitch, base_url := "https://www.twitch.tv/", username := "brutalles" }

/-- Oracle for one `main` run: an environment for each `watch_stream` call
and the HTTP layer of the standalone liveness check between them. -/
structure MainEnv where
  kickEnv : WatchEnv
  mainHttp : String → HttpOutcome
  twitchEnv : WatchEnv

/-- The `try` block of `main`: watch the kick target; then build a fresh
default `TwitchConfig`, run `check_twitch_stream` on the twitch username, and
watch the twitch target only if that check returned `True`. -/
def main_body (env : MainEnv) (fuel : Nat) :
    Option (Except PyExc Unit × List Ev × StreamViewer) :=
  let viewer : StreamViewer := {}
  match watch_stream viewer env.kickEnv kick_config fuel with
  | none => none
  | some (.error ex, evs, st) => some (.error ex, evs, st)
  | some (.ok _, evs, st) =>
    let tc : TwitchConfig := {}
    let chk := check_twitch_stream env.mainHttp twitch_config.username tc
    match chk.result with
    | .error ex => some (.error ex, evs ++ chk.events, st)
    | .ok live =>
      if live then
        match watch_stream st env.twitchEnv twitch_config fuel with
        | none => none
        | some (r, tevs, st') => some (r, evs ++ chk.events ++ tevs, st')
      else some (.ok (), evs ++ chk.events, st)

/-- `main`: the body above inside `try ... except StreamViewerException as e:
logger.error(...)` — a `StreamViewerException` is logged and swallowed (the
process exits normally), every other exception propagates. -/
def main (env : MainEnv) (fuel : Nat) : Option (Except PyExc Unit × List Ev) :=
  match main_body env fuel with
  | none => none
  | some (.ok _, evs, _) => some (.ok (), evs)
  | some (.error (.streamViewerException m), evs, _) =>
      some (.ok (), evs ++ [Ev.logError ("Stream viewing failed: " ++ m)])
  | some (.error ex, evs, _) => some (.error ex, evs)

/-! ## Auxiliary definitions used by the verification -/

/-- Whether an `Except` outcome is a raised `StreamViewerException`. -/
def isSVEError {α : Type} : Except PyExc α → Bool
  | .error (.streamViewerException _) => true
  | _ => false

/-- The event trace of a kick poll loop that sees the player element visible
`t` more times before the check that reports it gone. -/
def pollTrace : Nat → List Ev
  | 0 => [Ev.checkPlayerVisible false]
  | t + 1 => Ev.checkPlayerVisible true :: Ev.sleep 10 :: pollTrace t

/-- An operation that fails on every invocation. -/
def alwaysBoom : Nat → Except PyExc Unit × List Ev :=
  fun _ => (Except.error (PyExc.otherError "boom"), [])

/-- A captcha oracle where every call succeeds and no Accept button exists. -/
def okCaptcha : CaptchaEnv :=
  ⟨Except.ok (), Except.ok (), false, Except.ok ()⟩

/-- Environment where every external call succeeds, the HTTP response carries
the live marker, and the player element stays visible forever. -/
def liveForeverEnv : WatchEnv where
  sbEnter := Except.ok ()
  navPrimary := Except.ok ()
  primaryCaptcha := okCaptcha
  http := fun _ => HttpOutcome.response 200 "isLiveBroadcast"
  playerVisible := fun _ => true
  newDriverOutcome := Except.ok ()
  navSecondary := Except.ok ()
  secondaryCaptcha := okCaptcha

/-- Like `liveForeverEnv`, but the player element is first reported not
visible at visibility check number 3. -/
def liveUntil3Env : WatchEnv :=
  { liveForeverEnv with playerVisible := fun k => decide (k < 3) }

/-- Environment whose `SB(...)` context creation fails with a generic error. -/
def sbFailEnv : WatchEnv :=
  { liveForeverEnv with sbEnter := Except.error (PyExc.otherError "x") }

/-- Environment whose primary navigation raises a `StreamViewerException`. -/
def sveNavEnv : WatchEnv :=
  { liveForeverEnv with navPrimary := Except.error (PyExc.streamViewerException "boom") }

/-- A `main` environment whose kick watch raises a `StreamViewerException`
during primary navigation. -/
def mainEnvSve : MainEnv :=
  { kickEnv := sveNavEnv
    mainHttp := fun _ => HttpOutcome.response 200 "no"
    twitchEnv := liveForeverEnv }

/-- The trace of `watch_stream {} liveForeverEnv twitch_config 5`. -/
def twitchLiveTrace : List Ev :=
  [Ev.sbCreate, Ev.infoAttempt StreamPlatform.twitch,
   Ev.openPrimary "https://www.twitch.tv/brutalles" 4,
   Ev.sleep 1, Ev.clickCaptcha, Ev.handleCaptchaGui, Ev.sleep 4, Ev.checkAccept false,
   Ev.httpGet "https://www.twitch.tv/brutalles" "kimne78kx3ncx6brgo4mv6wki5h1ko",
   Ev.newDriver, Ev.openSecondary "https://www.twitch.tv/brutalles" 5,
   Ev.sleep 1, Ev.clickCaptcha, Ev.handleCaptchaGui, Ev.sleep 4, Ev.checkAccept false,
   Ev.closePrimary, Ev.cleanupRun, Ev.quitExtraDriver]

/-- The trace of `watch_stream {} liveUntil3Env kick_config 10`. -/
def kickLiveTrace : List Ev :=
  [Ev.sbCreate, Ev.infoAttempt StreamPlatform.kick,
   Ev.openPrimary "https://kick.com/brutalles" 4,
   Ev.sleep 1, Ev.clickCaptcha, Ev.handleCaptchaGui, Ev.sleep 4, Ev.checkAccept false,
   Ev.checkPlayerVisible true,
   Ev.newDriver, Ev.openSecondary "https://kick.com/brutalles" 5,
   Ev.sleep 1, Ev.clickCaptcha, Ev.handleCaptchaGui, Ev.sleep 4, Ev.checkAccept false,
   Ev.checkPlayerVisible true, Ev.sleep 10,
   Ev.checkPlayerVisible true, Ev.sleep 10,
   Ev.checkPlayerVisible false,
   Ev.closePrimary, Ev.cleanupRun, Ev.quitExtraDriver]

/-! ## Lemmas about the retry machinery -/

lemma retryLoop_ok {α : Type} (fnName : String) (maxA waitS : Nat) (v : α)
    (evs : List Ev) (n fuel : Nat) :
    retryLoop fnName maxA waitS (fun _ => (Except.ok v, evs)) n (fuel + 1)
      = ⟨Except.ok v, 1, [], evs⟩ := rfl

lemma retryLoop_alwaysFail {α : Type} (fnName : String) (maxA waitS : Nat)
    (err : Nat → PyExc) (evf : Nat → List Ev) :
    ∀ fuel n, 1 ≤ n → n ≤ maxA → maxA + 1 ≤ n + fuel →
      (retryLoop fnName maxA waitS
          (fun k => ((Except.error (err k) : Except PyExc α), evf k)) n fuel).result
          = Except.error (PyExc.retryError
              (PyExc.streamViewerException (failMsg maxA (pyStr (err maxA)))))
      ∧ (retryLoop fnName maxA waitS
          (fun k => ((Except.error (err k) : Except PyExc α), evf k)) n fuel).calls
          = maxA + 1 - n
      ∧ (retryLoop fnName maxA waitS
          (fun k => ((Except.error (err k) : Except PyExc α), evf k)) n fuel).delays
          = (List.range (maxA - n)).map
              (fun i => waitExponential waitS waitS MAX_WAIT (n + i)) := by
  intro fuel
  induction fuel with
  | zero => intro n h1 h2 h3; omega
  | succ fuel ih =>
    intro n h1 h2 h3
    by_cases hstop : maxA ≤ n
    · have hn : n = maxA := le_antisymm h2 hstop
      subst hn
      refine ⟨?_, ?_, ?_⟩ <;>
        simp [retryLoop, wrapperAttempt, hstop, Nat.sub_self]
    · have hrec := ih (n + 1) (by omega) (by omega) (by omega)
      have hr : maxA - n = (maxA - (n + 1)) + 1 := by omega
      simp only [retryLoop, wrapperAttempt, if_neg hstop]
      refine ⟨hrec.1, ?_, ?_⟩
      · rw [hrec.2.1]; omega
      · rw [hrec.2.2, hr, List.range_succ_eq_map, List.map_cons, List.map_map]
        congr 1
        refine List.map_congr_left fun a _ => ?_
        simp only [Function.comp_apply]
        congr 1
        omega

lemma waitExponential_mono (mult minW maxW : Nat) {m n : Nat} (h : m ≤ n) :
    waitExponential mult minW maxW m ≤ waitExponential mult minW maxW n := by
  unfold waitExponential
  exact max_le_max le_rfl
    (min_le_min
      (Nat.mul_le_mul_left _ (Nat.pow_le_pow_right (by omega) (by omega))) le_rfl)

/-! ## Claim C1: behaviour of the retry wrapper on an always-failing operation -/

/-- **C1, counterexample.**  Wrapping an always-failing operation with
`retry_on_exception` at the default `max_attempts = 3`: the underlying
operation is invoked 3 times, but the exception that reaches the caller is a
`tenacity.RetryError` wrapping the final `StreamViewerException` — not a
`StreamViewerException` itself, contradicting the claim that the wrapper
raises "exactly one domain-level StreamViewerException". -/
theorem retry_alwaysFail_counterexample :
    (retry_on_exception "op" 3 2 alwaysBoom).calls = 3
    ∧ (retry_on_exception "op" 3 2 alwaysBoom).result
        = Except.error (PyExc.retryError
            (PyExc.streamViewerException "Failed after 3 attempts: boom"))
    ∧ isSVEError (retry_on_exception "op" 3 2 alwaysBoom).result = false :=
  ⟨rfl, rfl, rfl⟩

/-- **C1 (amended).**  For every operation wrapped by `retry_on_exception`
that fails on every invocation, the wrapper invokes the underlying operation
exactly `max_attempts` times; each failed attempt raises (into tenacity) a
`StreamViewerException` carrying the configured `max_attempts` count and that
attempt's error text, and after exhaustion the caller receives a single
`tenacity.RetryError` wrapping the last such `StreamViewerException` (which
carries `max_attempts` and the last underlying error text). -/
theorem retry_alwaysFail_spec {α : Type} (fnName : String) (maxA waitS : Nat)
    (err : Nat → PyExc) (evf : Nat → List Ev) (h : 1 ≤ maxA) :
    (retry_on_exception fnName maxA waitS
        (fun k => ((Except.error (err k) : Except PyExc α), evf k))).calls = maxA
    ∧ (retry_on_exception fnName maxA waitS
        (fun k => ((Except.error (err k) : Except PyExc α), evf k))).result
        = Except.error (PyExc.retryError
            (PyExc.streamViewerException (failMsg maxA (pyStr (err maxA))))) := by
  have hmain := retryLoop_alwaysFail (α := α) fnName maxA waitS err evf
    (maxA + 1) 1 le_rfl h (by omega)
  exact ⟨by simpa using hmain.2.1, hmain.1⟩

/-- Witness for C1's amended theorem at `max_attempts = 5`. -/
theorem retry_alwaysFail_spec_witness :
    (retry_on_exception "op" 5 2
        (fun _ => ((Except.error (PyExc.otherError "boom") : Except PyExc Unit),
                   ([] : List Ev)))).calls = 5
    ∧ (retry_on_exception "op" 5 2
        (fun _ => ((Except.error (PyExc.otherError "boom") : Except PyExc Unit),
                   ([] : List Ev)))).result
        = Except.error (PyExc.retryError
            (PyExc.streamViewerException (failMsg 5 (pyStr (PyExc.otherError "boom"))))) :=
  retry_alwaysFail_spec "op" 5 2 (fun _ => PyExc.otherError "boom") (fun _ => [])
    (by decide)

/-! ## Claim C2: the inter-attempt delay schedule -/

/-- **C2, counterexample.**  The delay before attempt 64 (attempt number
`n = 63`) is clamped to tenacity's `MAX_WAIT = 2 ^ 62` and differs from the
uncapped formula `base * 2 ^ (n - 1) = 2 * 2 ^ 62`: there *is* an upper cap
on the delay. -/
theorem retry_delay_cap_counterexample :
    (retry_on_exception "op" 64 2 alwaysBoom).delays.getD 62 0 = 2 ^ 62
    ∧ (retry_on_exception "op" 64 2 alwaysBoom).delays.getD 62 0 ≠ 2 * 2 ^ (63 - 1) := by
  have h : (retry_on_exception "op" 64 2 alwaysBoom).delays.getD 62 0 = 2 ^ 62 := by
    rfl
  exact ⟨h, by rw [h]; decide⟩

/-- **C2 (amended).**  For every wrapped always-failing operation, the delay
waited before attempt `n + 1` equals
`max wait_seconds (min (wait_seconds * 2 ^ (n - 1)) MAX_WAIT)`; whenever
`wait_seconds * 2 ^ (n - 1)` is below tenacity's cap `MAX_WAIT = 2 ^ 62`,
this is exactly `wait_seconds * 2 ^ (n - 1)` (base × 2^(n−1), base default 2),
and the sequence of inter-attempt delays is monotonically non-decreasing. -/
theorem retry_delay_spec {α : Type} (fnName : String) (maxA waitS : Nat)
    (err : Nat → PyExc) (evf : Nat → List Ev) :
    (retry_on_exception fnName maxA waitS
        (fun k => ((Except.error (err k) : Except PyExc α), evf k))).delays
        = (List.range (maxA - 1)).map (fun i => waitExponential waitS waitS MAX_WAIT (i + 1))
    ∧ (∀ n, 1 ≤ n → n + 1 ≤ maxA →
        (retry_on_exception fnName maxA waitS
            (fun k => ((Except.error (err k) : Except PyExc α), evf k))).delays.getD (n - 1) 0
          = max waitS (min (waitS * 2 ^ (n - 1)) MAX_WAIT))
    ∧ (∀ n, 1 ≤ n → n + 1 ≤ maxA → waitS * 2 ^ (n - 1) ≤ MAX_WAIT →
        (retry_on_exception fnName maxA waitS
            (fun k => ((Except.error (err k) : Except PyExc α), evf k))).delays.getD (n - 1) 0
          = waitS * 2 ^ (n - 1))
    ∧ List.Pairwise (· ≤ ·)
        (retry_on_exception fnName maxA waitS
          (fun k => ((Except.error (err k) : Except PyExc α), evf k))).delays := by
  have hlist : (retry_on_exception fnName maxA waitS
      (fun k => ((Except.error (err k) : Except PyExc α), evf k))).delays
      = (List.range (maxA - 1)).map (fun i => waitExponential waitS waitS MAX_WAIT (i + 1)) := by
    by_cases h0 : maxA = 0
    · subst h0
      simp [retry_on_exception, retryLoop, wrapperAttempt]
    · have h := (retryLoop_alwaysFail (α := α) fnName maxA waitS err evf
        (maxA + 1) 1 le_rfl (by omega) (by omega)).2.2
      rw [retry_on_exception, h]
      exact List.map_congr_left fun i _ => by rw [Nat.add_comm]
  have hidx : ∀ n, 1 ≤ n → n + 1 ≤ maxA →
      (retry_on_exception fnName maxA waitS
          (fun k => ((Except.error (err k) : Except PyExc α), evf k))).delays.getD (n - 1) 0
        = waitExponential waitS waitS MAX_WAIT n := by
    intro n h1 h2
    have hlen : n - 1 < ((List.range (maxA - 1)).map
        (fun i => waitExponential waitS waitS MAX_WAIT (i + 1))).length := by
      simp; omega
    rw [hlist, List.getD_eq_getElem _ _ hlen]
    simp only [List.getElem_map, List.getElem_range]
    congr 1
    omega
  refine ⟨hlist, ?_, ?_, ?_⟩
  · intro n h1 h2
    rw [hidx n h1 h2]
    rfl
  · intro n h1 h2 h3
    rw [hidx n h1 h2]
    unfold waitExponential
    rw [min_eq_left h3, max_eq_right]
    calc waitS = waitS * 1 := by omega
    _ ≤ waitS * 2 ^ (n - 1) := Nat.mul_le_mul_left _ (Nat.one_le_two_pow)
  · rw [hlist]
    exact (List.pairwise_lt_range _).map _
      (fun a b hab => waitExponential_mono _ _ _ (by omega))

/-- Witness for C2's amended theorem at the source defaults
(`max_attempts = 3`, `wait_seconds = 2`): the first delay is
`2 * 2 ^ 0 = 2` and the delay list `[2, 4]` is non-decreasing. -/
theorem retry_delay_spec_witness :
    (retry_on_exception "w" 3 2
        (fun _ => ((Except.error (PyExc.otherError "e") : Except PyExc Unit),
                   ([] : List Ev)))).delays.getD 0 0 = 2 * 2 ^ (1 - 1)
    ∧ List.Pairwise (· ≤ ·)
        (retry_on_exception "w" 3 2
          (fun _ => ((Except.error (PyExc.otherError "e") : Except PyExc Unit),
                     ([] : List Ev)))).delays := by
  have h := retry_delay_spec (α := Unit) "w" 3 2 (fun _ => PyExc.otherError "e") (fun _ => [])
  exact ⟨h.2.2.1 1 (by decide) (by decide) (by decide), h.2.2.2⟩

/-! ## Lemmas about the liveness check -/

lemma check_twitch_stream_body_fst_ok (http : String → HttpOutcome) (u : String)
    (tc : TwitchConfig) :
    ∃ b : Bool, (check_twitch_stream_body http u tc).1 = Except.ok b := by
  unfold check_twitch_stream_body requestsGetRaiseForStatus
  cases h : http (twitchStreamUrl u) with
  | response status body =>
      by_cases hs : 400 ≤ status ∧ status < 600
      · exact ⟨false, by simp [h, hs]⟩
      · exact ⟨strContains body tc.live_indicator, by simp [h, hs]⟩
  | transportError m => exact ⟨false, by simp [h]⟩

/-- The decorator around `check_twitch_stream` is inert: the decorated body
returns on every path of the HTTP model, so tenacity performs exactly one
attempt and returns its value. -/
lemma check_twitch_stream_eq (http : String → HttpOutcome) (u : String)
    (tc : TwitchConfig) :
    check_twitch_stream http u tc
      = ⟨(check_twitch_stream_body http u tc).1, 1, [],
         (check_twitch_stream_body http u tc).2⟩ := by
  obtain ⟨b, hb⟩ := check_twitch_stream_body_fst_ok http u tc
  have hfun : (fun _ : Nat => check_twitch_stream_body http u tc)
      = fun _ : Nat => ((Except.ok b : Except PyExc Bool),
                        (check_twitch_stream_body http u tc).2) := by
    funext k
    rw [← hb]
  rw [check_twitch_stream, retry_on_exception, hfun, retryLoop_ok, hb]

/-! ## Claim C3: the marker decides the liveness result -/

/-- **C3, counterexample.**  A 404 response whose body contains the marker:
`raise_for_status` raises `HTTPError`, the `except RequestException` clause
swallows it, and `check_twitch_stream` returns `false` even though the marker
occurs in the response body. -/
theorem check_twitch_marker_counterexample :
    strContains "isLiveBroadcast" "isLiveBroadcast" = true
    ∧ (check_twitch_stream (fun _ => HttpOutcome.response 404 "isLiveBroadcast")
        "brutalles" {}).result = Except.ok false :=
  ⟨rfl, rfl⟩

/-- **C3 (amended).**  For every response whose status is outside `[400, 600)`
(so `raise_for_status` does not raise), `check_twitch_stream` returns exactly
whether the marker occurs in the body; for every response with status in
`[400, 600)` and for every thrown transport error it returns `false`. -/
theorem check_twitch_stream_decision (http : String → HttpOutcome) (u : String)
    (tc : TwitchConfig) (status : Nat) (body m : String) :
    (http (twitchStreamUrl u) = HttpOutcome.response status body →
        ¬(400 ≤ status ∧ status < 600) →
        (check_twitch_stream http u tc).result
          = Except.ok (strContains body tc.live_indicator))
    ∧ (http (twitchStreamUrl u) = HttpOutcome.response status body →
        400 ≤ status ∧ status < 600 →
        (check_twitch_stream http u tc).result = Except.ok false)
    ∧ (http (twitchStreamUrl u) = HttpOutcome.transportError m →
        (check_twitch_stream http u tc).result = Except.ok false) := by
  rw [check_twitch_stream_eq]
  refine ⟨?_, ?_, ?_⟩
  · intro h1 hs
    simp [check_twitch_stream_body, requestsGetRaiseForStatus, h1, hs]
  · intro h1 hs
    simp [check_twitch_stream_body, requestsGetRaiseForStatus, h1, hs]
  · intro h1
    simp [check_twitch_stream_body, requestsGetRaiseForStatus, h1]

/-- Witness for C3's amended theorem: a 200 response containing the marker
makes the check return `true`. -/
theorem check_twitch_stream_decision_witness :
    (check_twitch_stream (fun _ => HttpOutcome.response 200 "xx isLiveBroadcast yy")
        "brutalles" {}).result = Except.ok true := by
  have h := (check_twitch_stream_decision
      (fun _ => HttpOutcome.response 200 "xx isLiveBroadcast yy")
      "brutalles" {} 200 "xx isLiveBroadcast yy" "").1 rfl (by decide)
  exact h.trans (congrArg Except.ok (by decide))

/-! ## Claim C6: liveness-check failures never propagate -/

/-- **C6.**  For every HTTP oracle, `check_twitch_stream` returns a boolean
(no exception escapes), tenacity performs exactly one attempt with no retry
delays, and on a transport error the check logs the failure and returns
`false`. -/
theorem check_twitch_stream_no_raise (http : String → HttpOutcome) (u : String)
    (tc : TwitchConfig) (m : String) :
    (∃ b : Bool, (check_twitch_stream http u tc).result = Except.ok b)
    ∧ (check_twitch_stream http u tc).calls = 1
    ∧ (check_twitch_stream http u tc).delays = []
    ∧ (http (twitchStreamUrl u) = HttpOutcome.transportError m →
        (check_twitch_stream http u tc).result = Except.ok false
        ∧ Ev.logError ("Failed to check Twitch stream status: " ++ m)
            ∈ (check_twitch_stream http u tc).events) := by
  rw [check_twitch_stream_eq]
  refine ⟨check_twitch_stream_body_fst_ok http u tc, rfl, rfl, ?_⟩
  intro hm
  simp [check_twitch_stream_body, requestsGetRaiseForStatus, hm]

/-- Witness for C6 on a concrete connection error. -/
theorem check_twitch_stream_no_raise_witness :
    (check_twitch_stream (fun _ => HttpOutcome.transportError "conn") "brutalles" {}).result
        = Except.ok false
    ∧ Ev.logError ("Failed to check Twitch stream status: " ++ "conn")
        ∈ (check_twitch_stream (fun _ => HttpOutcome.transportError "conn")
            "brutalles" {}).events :=
  (check_twitch_stream_no_raise (fun _ => HttpOutcome.transportError "conn")
    "brutalles" {} "conn").2.2.2 rfl

/-! ## Claim C8: consent handling is best-effort -/

/-- **C8.**  During challenge handling, after the settle pause
(`browser.sleep(reconnect_time)`) the driver checks for the consent-acceptance
control and clicks it if and only if the check found it present; when the
control is absent, the step completes without error. -/
theorem consent_click_iff (ce : CaptchaEnv) (rt : Nat)
    (h1 : ce.clickCaptchaOutcome = Except.ok ())
    (h2 : ce.handleCaptchaOutcome = Except.ok ()) :
    ((handle_captcha_and_consent ce rt).2.take 5
        = [Ev.sleep 1, Ev.clickCaptcha, Ev.handleCaptchaGui, Ev.sleep rt,
           Ev.checkAccept ce.acceptPresent])
    ∧ (Ev.clickAccept ∈ (handle_captcha_and_consent ce rt).2 ↔ ce.acceptPresent = true)
    ∧ (ce.acceptPresent = false →
        handle_captcha_and_consent ce rt
          = (Except.ok (),
             [Ev.sleep 1, Ev.clickCaptcha, Ev.handleCaptchaGui, Ev.sleep rt,
              Ev.checkAccept false])) := by
  rcases ce with ⟨c1, c2, p, c3⟩
  simp only at h1 h2
  subst h1; subst h2
  cases p <;> cases c3 <;> simp [handle_captcha_and_consent]

/-- Witness for C8: with every captcha call succeeding and no Accept control
present, nothing is clicked and the step returns without error. -/
theorem consent_click_iff_witness :
    Ev.clickAccept ∉ (handle_captcha_and_consent okCaptcha 4).2
    ∧ handle_captcha_and_consent okCaptcha 4
        = (Except.ok (), [Ev.sleep 1, Ev.clickCaptcha, Ev.handleCaptchaGui,
                          Ev.sleep 4, Ev.checkAccept false]) := by
  have h := consent_click_iff okCaptcha 4 rfl rfl
  exact ⟨fun hm => by simpa [okCaptcha] using h.2.1.mp hm, h.2.2 rfl⟩

/-! ## Lemmas about the poll loop -/

lemma pollTrace_count_sleep (t : Nat) : (pollTrace t).count (Ev.sleep 10) = t := by
  induction t with
  | zero => simp [pollTrace]
  | succ t ih => simp [pollTrace, List.count_cons, ih]

lemma pollTrace_count_visible (t : Nat) :
    (pollTrace t).count (Ev.checkPlayerVisible true) = t := by
  induction t with
  | zero => simp [pollTrace]
  | succ t ih => simp [pollTrace, List.count_cons, ih]

lemma pollTrace_count_gone (t : Nat) :
    (pollTrace t).count (Ev.checkPlayerVisible false) = 1 := by
  induction t with
  | zero => simp [pollTrace]
  | succ t ih => simp [pollTrace, List.count_cons, ih]

lemma pollTrace_count_zero (t : Nat) (x : Ev) (hx1 : x ≠ Ev.sleep 10)
    (hx2 : ∀ b, x ≠ Ev.checkPlayerVisible b) : (pollTrace t).count x = 0 := by
  have h2t := hx2 true
  have h2f := hx2 false
  induction t with
  | zero => simp [pollTrace, List.count_cons, h2f]
  | succ t ih => simp [pollTrace, List.count_cons, ih, hx1, h2t]

/-- If the player element is reported visible at all checks in `[k, j)` and
not visible at check `j`, the poll loop started at `k` terminates with the
trace `pollTrace (j - k)`. -/
lemma pollLoop_exit (vis : Nat → Bool) (j : Nat) (hj : vis j = false) :
    ∀ fuel k, k ≤ j → (∀ i, k ≤ i → i < j → vis i = true) → j - k < fuel →
      pollLoop vis k fuel = some (pollTrace (j - k)) := by
  intro fuel
  induction fuel with
  | zero => intro k _ _ h; omega
  | succ fuel ih =>
    intro k hk hall hfuel
    by_cases hkj : k = j
    · subst hkj
      simp [pollLoop, hj, pollTrace, Nat.sub_self]
    · have hv : vis k = true := hall k le_rfl (by omega)
      have hrec := ih (k + 1) (by omega) (fun i hi1 hi2 => hall i (by omega) hi2) (by omega)
      have hjk : j - k = (j - (k + 1)) + 1 := by omega
      simp [pollLoop, hv, hrec, hjk, pollTrace]

lemma pollLoop_count_zero (vis : Nat → Bool) (x : Ev) (hx1 : x ≠ Ev.sleep 10)
    (hx2 : ∀ b, x ≠ Ev.checkPlayerVisible b) :
    ∀ fuel k pevs, pollLoop vis k fuel = some pevs → pevs.count x = 0 := by
  have h2t := hx2 true
  have h2f := hx2 false
  intro fuel
  induction fuel with
  | zero => intro k pevs h; simp [pollLoop] at h
  | succ fuel ih =>
    intro k pevs h
    by_cases hv : vis k
    · rw [pollLoop, if_pos hv] at h
      cases hmap : pollLoop vis (k + 1) fuel with
      | none => rw [hmap] at h; simp at h
      | some pevs' =>
          rw [hmap] at h
          simp only [Option.map_some'] at h
          cases h
          simp [List.count_cons, ih (k + 1) pevs' hmap, hx1, h2t]
    · rw [pollLoop, if_neg hv] at h
      cases h
      simp [List.count_cons, h2f]

/-! ## Counting lemmas for the session driver -/

lemma hc_count_zero (ce : CaptchaEnv) (rt : Nat) (x : Ev)
    (hx1 : x ≠ Ev.sleep 1) (hx2 : x ≠ Ev.clickCaptcha) (hx3 : x ≠ Ev.handleCaptchaGui)
    (hx4 : x ≠ Ev.sleep rt) (hx5 : ∀ b, x ≠ Ev.checkAccept b)
    (hx6 : x ≠ Ev.clickAccept) :
    (handle_captcha_and_consent ce rt).2.count x = 0 := by
  have h5t := hx5 true
  have h5f := hx5 false
  rcases ce with ⟨c1, c2, p, c3⟩
  cases c1 <;> cases c2 <;> cases p <;> cases c3 <;>
    simp_all [handle_captcha_and_consent, List.count_cons]

lemma hc_count_click (ce : CaptchaEnv) (rt : Nat) :
    (handle_captcha_and_consent ce rt).2.count Ev.clickCaptcha = 1 := by
  rcases ce with ⟨c1, c2, p, c3⟩
  cases c1 <;> cases c2 <;> cases p <;> cases c3 <;>
    simp [handle_captcha_and_consent, List.count_cons]

lemma cleanup_count_one (st : StreamViewer) :
    (_cleanup st).1.count Ev.cleanupRun = 1 := by
  cases h : st.secondary_browser <;> simp [_cleanup, h, List.count_cons]

lemma cleanup_count_zero (st : StreamViewer) (x : Ev) (h1 : x ≠ Ev.cleanupRun)
    (h2 : x ≠ Ev.quitExtraDriver) : (_cleanup st).1.count x = 0 := by
  cases h : st.secondary_browser <;> simp [_cleanup, h, List.count_cons, h1, h2]

lemma cleanup_secondary_none (st : StreamViewer) :
    (_cleanup st).2.secondary_browser = none := by
  cases h : st.secondary_browser <;> simp [_cleanup, h]

lemma init_count_zero (env : WatchEnv) (cfg : StreamPlatformConfig) (x : Ev)
    (hop : ∀ u n, x ≠ Ev.openPrimary u n)
    (hx1 : x ≠ Ev.sleep 1) (hx2 : x ≠ Ev.clickCaptcha) (hx3 : x ≠ Ev.handleCaptchaGui)
    (hx4 : x ≠ Ev.sleep 4) (hx5 : ∀ b, x ≠ Ev.checkAccept b)
    (hx6 : x ≠ Ev.clickAccept) :
    (_initialize_stream_viewing env cfg).2.count x = 0 := by
  have hhc := hc_count_zero env.primaryCaptcha 4 x hx1 hx2 hx3 hx4 hx5 hx6
  unfold _initialize_stream_viewing
  cases env.navPrimary with
  | error ex => simp [List.count_cons, hop cfg.stream_url 4]
  | ok _ =>
      cases hp : handle_captcha_and_consent env.primaryCaptcha 4 with
      | mk r evs =>
          rw [hp] at hhc
          simp [List.count_cons, hop cfg.stream_url 4, hhc]

lemma setup_count_zero (st : StreamViewer) (env : WatchEnv)
    (cfg : StreamPlatformConfig) (x : Ev)
    (hnd : x ≠ Ev.newDriver) (hos : ∀ u n, x ≠ Ev.openSecondary u n)
    (hx1 : x ≠ Ev.sleep 1) (hx2 : x ≠ Ev.clickCaptcha) (hx3 : x ≠ Ev.handleCaptchaGui)
    (hx4 : x ≠ Ev.sleep 4) (hx5 : ∀ b, x ≠ Ev.checkAccept b)
    (hx6 : x ≠ Ev.clickAccept) :
    (_setup_secondary_viewer st env cfg).2.1.count x = 0 := by
  have hhc := hc_count_zero env.secondaryCaptcha 4 x hx1 hx2 hx3 hx4 hx5 hx6
  unfold _setup_secondary_viewer
  cases env.newDriverOutcome with
  | error ex => simp [List.count_cons, hnd]
  | ok _ =>
      cases env.navSecondary with
      | error ex => simp [List.count_cons, hnd, hos cfg.stream_url 5]
      | ok _ =>
          cases hp : handle_captcha_and_consent env.secondaryCaptcha 4 with
          | mk r evs =>
              rw [hp] at hhc
              simp [List.count_cons, hnd, hos cfg.stream_url 5, hhc]

lemma check_events_count_zero (http : String → HttpOutcome) (u : String)
    (tc : TwitchConfig) (x : Ev)
    (hg : ∀ a b, x ≠ Ev.httpGet a b) (hl : ∀ m, x ≠ Ev.logError m) :
    (check_twitch_stream http u tc).events.count x = 0 := by
  rw [check_twitch_stream_eq]
  unfold check_twitch_stream_body requestsGetRaiseForStatus
  cases h : http (twitchStreamUrl u) with
  | response status body =>
      by_cases hs : 400 ≤ status ∧ status < 600 <;>
        simp [h, hs, List.count_cons, hg (twitchStreamUrl u) tc.client_id, hl]
  | transportError m =>
      simp [h, List.count_cons, hg (twitchStreamUrl u) tc.client_id, hl]

lemma twitch_watcher_count_zero (st : StreamViewer) (env : WatchEnv)
    (cfg : StreamPlatformConfig) (x : Ev)
    (hg : ∀ a b, x ≠ Ev.httpGet a b) (hl : ∀ m, x ≠ Ev.logError m)
    (hnd : x ≠ Ev.newDriver) (hos : ∀ u n, x ≠ Ev.openSecondary u n)
    (hx1 : x ≠ Ev.sleep 1) (hx2 : x ≠ Ev.clickCaptcha) (hx3 : x ≠ Ev.handleCaptchaGui)
    (hx4 : x ≠ Ev.sleep 4) (hx5 : ∀ b, x ≠ Ev.checkAccept b)
    (hx6 : x ≠ Ev.clickAccept) :
    (_watch_twitch_stream st env cfg).2.1.count x = 0 := by
  have hsetup := setup_count_zero st env cfg x hnd hos hx1 hx2 hx3 hx4 hx5 hx6
  have hchk : ((check_twitch_stream_body env.http cfg.username {}).2).count x = 0 := by
    have h := check_events_count_zero env.http cfg.username {} x hg hl
    rwa [check_twitch_stream_eq] at h
  obtain ⟨b, hb⟩ := check_twitch_stream_body_fst_ok env.http cfg.username {}
  unfold _watch_twitch_stream
  simp only [check_twitch_stream_eq, hb]
  cases b
  · simpa using hchk
  · simp [List.count_append, hchk, hsetup]

lemma kick_watcher_count_zero (st : StreamViewer) (env : WatchEnv)
    (cfg : StreamPlatformConfig) (fuel : Nat) (x : Ev)
    (hnd : x ≠ Ev.newDriver) (hos : ∀ u n, x ≠ Ev.openSecondary u n)
    (hx1 : x ≠ Ev.sleep 1) (hx2 : x ≠ Ev.clickCaptcha) (hx3 : x ≠ Ev.handleCaptchaGui)
    (hx4 : x ≠ Ev.sleep 4) (hx5 : ∀ b, x ≠ Ev.checkAccept b)
    (hx6 : x ≠ Ev.clickAccept)
    (hs10 : x ≠ Ev.sleep 10) (hcpv : ∀ b, x ≠ Ev.checkPlayerVisible b) :
    ∀ r evs st', _watch_kick_stream st env cfg fuel = some (r, evs, st') →
      evs.count x = 0 := by
  intro r evs st' h
  have hsetup := setup_count_zero st env cfg x hnd hos hx1 hx2 hx3 hx4 hx5 hx6
  have hcpvT := hcpv true
  have hcpvF := hcpv false
  unfold _watch_kick_stream at h
  by_cases hv : env.playerVisible 0
  · rw [if_pos hv] at h
    split at h
    · rename_i heq
      rw [heq] at hsetup
      simp only [Option.some.injEq, Prod.mk.injEq] at h
      obtain ⟨-, h2, -⟩ := h
      subst h2
      simp only at hsetup
      simp [List.count_cons, hcpvT, hsetup]
    · rename_i heq
      rw [heq] at hsetup
      cases hpl : pollLoop env.playerVisible 1 fuel with
      | none => rw [hpl] at h; simp at h
      | some pevs =>
          rw [hpl] at h
          simp only [Option.map_some', Option.some.injEq, Prod.mk.injEq] at h
          obtain ⟨-, h2, -⟩ := h
          subst h2
          have hpc := pollLoop_count_zero env.playerVisible x hs10 hcpv fuel 1 pevs hpl
          simp only at hsetup
          simp [List.count_cons, List.count_append, hcpvT, hsetup, hpc]
  · rw [if_neg hv] at h
    simp only [Option.some.injEq, Prod.mk.injEq] at h
    obtain ⟨-, h2, -⟩ := h
    subst h2
    simp [List.count_cons, hcpvF]

lemma body_count_zero (st : StreamViewer) (env : WatchEnv)
    (cfg : StreamPlatformConfig) (fuel : Nat) (x : Ev)
    (h01 : x ≠ Ev.sbCreate) (h02 : ∀ p, x ≠ Ev.infoAttempt p)
    (h03 : ∀ u n, x ≠ Ev.openPrimary u n)
    (hx1 : x ≠ Ev.sleep 1) (hx2 : x ≠ Ev.clickCaptcha) (hx3 : x ≠ Ev.handleCaptchaGui)
    (hx4 : x ≠ Ev.sleep 4) (hx5 : ∀ b, x ≠ Ev.checkAccept b)
    (hx6 : x ≠ Ev.clickAccept)
    (hg : ∀ a b, x ≠ Ev.httpGet a b) (hl : ∀ m, x ≠ Ev.logError m)
    (hnd : x ≠ Ev.newDriver) (hos : ∀ u n, x ≠ Ev.openSecondary u n)
    (hcp : x ≠ Ev.closePrimary)
    (hs10 : x ≠ Ev.sleep 10) (hcpv : ∀ b, x ≠ Ev.checkPlayerVisible b) :
    ∀ r evs st', watch_body st env cfg fuel = some (r, evs, st') →
      evs.count x = 0 := by
  intro r evs st' h
  have hinit := init_count_zero env cfg x h03 hx1 hx2 hx3 hx4 hx5 hx6
  unfold watch_body at h
  split at h
  · simp only [Option.some.injEq, Prod.mk.injEq] at h
    obtain ⟨-, h2, -⟩ := h
    subst h2
    simp [List.count_cons, h01]
  · split at h
    · rename_i heq
      rw [heq] at hinit
      simp only at hinit
      simp only [Option.some.injEq, Prod.mk.injEq] at h
      obtain ⟨-, h2, -⟩ := h
      subst h2
      simp [List.count_cons, List.count_append, h01, h02 cfg.platform, hcp, hinit]
    · rename_i heq
      rw [heq] at hinit
      simp only at hinit
      split at h
      · simp only [] at h
        cases hk : _watch_kick_stream { st with browser := some () } env cfg fuel with
        | none => rw [hk] at h; simp at h
        | some trip =>
            rw [hk] at h
            simp only [Option.map_some', Option.some.injEq, Prod.mk.injEq] at h
            obtain ⟨-, h2, -⟩ := h
            subst h2
            have hkc := kick_watcher_count_zero { st with browser := some () }
              env cfg fuel x hnd hos hx1 hx2 hx3 hx4 hx5 hx6 hs10 hcpv
              trip.1 trip.2.1 trip.2.2 (by rw [hk])
            simp [List.count_cons, List.count_append, h01, h02 cfg.platform,
                  hcp, hinit, hkc]
      · have htc := twitch_watcher_count_zero { st with browser := some () }
          env cfg x hg hl hnd hos hx1 hx2 hx3 hx4 hx5 hx6
        simp only [] at h
        simp only [Option.some.injEq, Prod.mk.injEq] at h
        obtain ⟨-, h2, -⟩ := h
        subst h2
        simp [List.count_cons, List.count_append, h01, h02 cfg.platform,
              hcp, hinit, htc]

lemma cleanup_noop (st : StreamViewer) (h : st.secondary_browser = none) :
    _cleanup st = ([Ev.cleanupRun], st) := by
  simp [_cleanup, h]

/-! ## Claim C5: cleanup runs exactly once on every exit path -/

/-- **C5.**  For every invocation of `watch_stream` that exits (normally or
with a raised error, on any branch and for any environment), the `_cleanup`
phase executes exactly once; and when no secondary session exists, `_cleanup`
is a no-op (no browser call, state unchanged). -/
theorem watch_stream_cleanup_once :
    (∀ st env cfg fuel r evs st',
        watch_stream st env cfg fuel = some (r, evs, st') →
        evs.count Ev.cleanupRun = 1)
    ∧ (∀ b : Option Unit,
        _cleanup { browser := b, secondary_browser := none }
          = ([Ev.cleanupRun], { browser := b, secondary_browser := none })) := by
  constructor
  · intro st env cfg fuel r evs st' h
    have hbody := body_count_zero st env cfg fuel Ev.cleanupRun
      (by simp) (by intro p; simp) (by intro u n; simp) (by simp) (by simp) (by simp)
      (by simp) (by intro b; simp) (by simp) (by intro a b; simp) (by intro m; simp)
      (by simp) (by intro u n; simp) (by simp) (by simp) (by intro b; simp)
    unfold watch_stream at h
    split at h
    · simp at h
    · rename_i r0 evs0 st1 heq
      have h0count := hbody r0 evs0 st1 heq
      cases hcl : _cleanup st1 with
      | mk cevs st2 =>
          have h1count : cevs.count Ev.cleanupRun = 1 := by
            have hco := cleanup_count_one st1
            rw [hcl] at hco
            exact hco
          rw [hcl] at h
          simp only [] at h
          split at h <;>
            (simp only [Option.some.injEq, Prod.mk.injEq] at h
             obtain ⟨-, h2, -⟩ := h
             subst h2
             simp [List.count_append, List.count_cons, h0count, h1count])
  · intro b
    exact cleanup_noop _ rfl

/-- Witness for C5 at a concrete failing environment: the trace of a
`watch_stream` run whose `SB` creation fails contains exactly one `_cleanup`
execution. -/
theorem watch_stream_cleanup_once_witness :
    [Ev.sbCreate, Ev.logError "Error during stream viewing: x",
     Ev.cleanupRun].count Ev.cleanupRun = 1 :=
  watch_stream_cleanup_once.1 {} sbFailEnv kick_config 0
    (Except.error (PyExc.otherError "x")) _ _ rfl

/-! ## Claim C9: the secondary-browser handle invariant -/

/-- **C9.**  `secondary_browser` is `none` in the initial `StreamViewer`
state; `_cleanup` always resets it to `none`; after every `watch_stream`
invocation that exits (normally or with an error) it is `none`; and a second
consecutive `_cleanup` call is a no-op. -/
theorem secondary_browser_invariant :
    ({} : StreamViewer).secondary_browser = none
    ∧ (∀ st, (_cleanup st).2.secondary_browser = none)
    ∧ (∀ st env cfg fuel r evs st',
        watch_stream st env cfg fuel = some (r, evs, st') →
        st'.secondary_browser = none)
    ∧ (∀ st, _cleanup (_cleanup st).2 = ([Ev.cleanupRun], (_cleanup st).2)) := by
  refine ⟨rfl, cleanup_secondary_none, ?_, ?_⟩
  · intro st env cfg fuel r evs st' h
    unfold watch_stream at h
    split at h
    · simp at h
    · rename_i r0 evs0 st1 heq
      have hnone := cleanup_secondary_none st1
      cases hcl : _cleanup st1 with
      | mk cevs st2 =>
          rw [hcl] at h hnone
          simp only [] at h
          split at h <;>
            (simp only [Option.some.injEq, Prod.mk.injEq] at h
             obtain ⟨-, -, h3⟩ := h
             subst h3
             exact hnone)
  · intro st
    exact cleanup_noop _ (cleanup_secondary_none st)

/-- Witness for C9's watch-stream conjunct at a concrete environment. -/
theorem secondary_browser_invariant_witness :
    ({ browser := none, secondary_browser := none } : StreamViewer).secondary_browser
      = none :=
  secondary_browser_invariant.2.2.1 {} sbFailEnv kick_config 0
    (Except.error (PyExc.otherError "x"))
    [Ev.sbCreate, Ev.logError "Error during stream viewing: x", Ev.cleanupRun] _ rfl

/-! ## Decomposition lemmas for successful runs -/

lemma init_ok_decomp (env : WatchEnv) (cfg : StreamPlatformConfig) (ievs : List Ev)
    (h : _initialize_stream_viewing env cfg = (Except.ok (), ievs)) :
    ievs.count Ev.clickCaptcha = 1 ∧ Ev.openPrimary cfg.stream_url 4 ∈ ievs := by
  have hclick := hc_count_click env.primaryCaptcha 4
  unfold _initialize_stream_viewing at h
  split at h
  · simp at h
  · simp only [Prod.mk.injEq] at h
    obtain ⟨-, h2⟩ := h
    subst h2
    simp [List.count_cons, hclick]

lemma setup_ok_decomp (st : StreamViewer) (env : WatchEnv)
    (cfg : StreamPlatformConfig) (sevs : List Ev) (st1 : StreamViewer)
    (h : _setup_secondary_viewer st env cfg = (Except.ok (), sevs, st1)) :
    sevs.count Ev.clickCaptcha = 1 ∧ Ev.openSecondary cfg.stream_url 5 ∈ sevs := by
  have hclick := hc_count_click env.secondaryCaptcha 4
  unfold _setup_secondary_viewer at h
  split at h
  · simp at h
  · split at h
    · simp at h
    · simp only [Prod.mk.injEq] at h
      obtain ⟨-, h2, -⟩ := h
      subst h2
      simp [List.count_cons, hclick]

lemma kick_ok_decomp (st : StreamViewer) (env : WatchEnv)
    (cfg : StreamPlatformConfig) (fuel : Nat) (kevs : List Ev) (st1 : StreamViewer)
    (hv0 : env.playerVisible 0 = true)
    (h : _watch_kick_stream st env cfg fuel = some (Except.ok (), kevs, st1)) :
    ∃ sevs pevs, _setup_secondary_viewer st env cfg = (Except.ok (), sevs, st1)
      ∧ pollLoop env.playerVisible 1 fuel = some pevs
      ∧ kevs = Ev.checkPlayerVisible true :: (sevs ++ pevs) := by
  unfold _watch_kick_stream at h
  rw [hv0, if_pos rfl] at h
  split at h
  · simp at h
  · rename_i heq
    cases hpl : pollLoop env.playerVisible 1 fuel with
    | none => rw [hpl] at h; simp at h
    | some pevs =>
        rw [hpl] at h
        simp only [Option.map_some', Option.some.injEq, Prod.mk.injEq] at h
        obtain ⟨-, h2, h3⟩ := h
        subst h3
        refine ⟨_, pevs, heq, rfl, h2.symm⟩

lemma body_kick_ok_decomp (st : StreamViewer) (env : WatchEnv)
    (cfg : StreamPlatformConfig) (fuel : Nat) (evs : List Ev) (st' : StreamViewer)
    (hplat : cfg.platform = StreamPlatform.kick)
    (h : watch_body st env cfg fuel = some (Except.ok (), evs, st')) :
    ∃ ievs kevs,
      _initialize_stream_viewing env cfg = (Except.ok (), ievs)
      ∧ _watch_kick_stream { st with browser := some () } env cfg fuel
          = some (Except.ok (), kevs, st')
      ∧ evs = [Ev.sbCreate, Ev.infoAttempt StreamPlatform.kick] ++ ievs ++ kevs
              ++ [Ev.closePrimary] := by
  unfold watch_body at h
  split at h
  · simp at h
  · split at h
    · simp at h
    · rename_i u ievs heqinit
      split at h
      · rename_i hpk
        simp only [] at h
        cases hk : _watch_kick_stream { st with browser := some () } env cfg fuel with
        | none => rw [hk] at h; simp at h
        | some trip =>
            rw [hk] at h
            simp only [Option.map_some', Option.some.injEq, Prod.mk.injEq] at h
            obtain ⟨h1, h2, h3⟩ := h
            refine ⟨ievs, trip.2.1, heqinit, ?_, ?_⟩
            · rw [← h1, ← h3]
            · rw [← h2, hpk]
      · rename_i hpt
        rw [hplat] at hpt
        simp at hpt

lemma watch_ok_decomp (st : StreamViewer) (env : WatchEnv)
    (cfg : StreamPlatformConfig) (fuel : Nat) (evs : List Ev) (st' : StreamViewer)
    (h : watch_stream st env cfg fuel = some (Except.ok (), evs, st')) :
    ∃ bevs st1, watch_body st env cfg fuel = some (Except.ok (), bevs, st1)
      ∧ evs = bevs ++ (_cleanup st1).1 ∧ st' = (_cleanup st1).2 := by
  unfold watch_stream at h
  split at h
  · simp at h
  · rename_i r0 evs0 st1 heq
    cases hcl : _cleanup st1 with
    | mk cevs st2 =>
        rw [hcl] at h
        simp only [] at h
        split at h
        · simp only [Option.some.injEq, Prod.mk.injEq] at h
          obtain ⟨-, h2, h3⟩ := h
          exact ⟨evs0, st1, heq, by rw [← h2, hcl], by rw [← h3, hcl]⟩
        · simp at h

lemma body_twitch_count_zero (st : StreamViewer) (env : WatchEnv)
    (cfg : StreamPlatformConfig) (fuel : Nat) (x : Ev)
    (hplat : cfg.platform = StreamPlatform.twitch)
    (h01 : x ≠ Ev.sbCreate) (h02 : ∀ p, x ≠ Ev.infoAttempt p)
    (h03 : ∀ u n, x ≠ Ev.openPrimary u n)
    (hx1 : x ≠ Ev.sleep 1) (hx2 : x ≠ Ev.clickCaptcha) (hx3 : x ≠ Ev.handleCaptchaGui)
    (hx4 : x ≠ Ev.sleep 4) (hx5 : ∀ b, x ≠ Ev.checkAccept b)
    (hx6 : x ≠ Ev.clickAccept)
    (hg : ∀ a b, x ≠ Ev.httpGet a b) (hl : ∀ m, x ≠ Ev.logError m)
    (hnd : x ≠ Ev.newDriver) (hos : ∀ u n, x ≠ Ev.openSecondary u n)
    (hcp : x ≠ Ev.closePrimary) :
    ∀ r evs st', watch_body st env cfg fuel = some (r, evs, st') →
      evs.count x = 0 := by
  intro r evs st' h
  have hinit := init_count_zero env cfg x h03 hx1 hx2 hx3 hx4 hx5 hx6
  unfold watch_body at h
  split at h
  · simp only [Option.some.injEq, Prod.mk.injEq] at h
    obtain ⟨-, h2, -⟩ := h
    subst h2
    simp [List.count_cons, h01]
  · split at h
    · rename_i heq
      rw [heq] at hinit
      simp only at hinit
      simp only [Option.some.injEq, Prod.mk.injEq] at h
      obtain ⟨-, h2, -⟩ := h
      subst h2
      simp [List.count_cons, List.count_append, h01, h02 cfg.platform, hcp, hinit]
    · rename_i heq
      rw [heq] at hinit
      simp only at hinit
      split at h
      · rename_i hpk
        rw [hplat] at hpk
        simp at hpk
      · have htc := twitch_watcher_count_zero { st with browser := some () }
          env cfg x hg hl hnd hos hx1 hx2 hx3 hx4 hx5 hx6
        simp only [] at h
        simp only [Option.some.injEq, Prod.mk.injEq] at h
        obtain ⟨-, h2, -⟩ := h
        subst h2
        simp [List.count_cons, List.count_append, h01, h02 cfg.platform,
              hcp, hinit, htc]

lemma watch_twitch_count_zero (st : StreamViewer) (env : WatchEnv)
    (cfg : StreamPlatformConfig) (fuel : Nat) (x : Ev)
    (hplat : cfg.platform = StreamPlatform.twitch)
    (h01 : x ≠ Ev.sbCreate) (h02 : ∀ p, x ≠ Ev.infoAttempt p)
    (h03 : ∀ u n, x ≠ Ev.openPrimary u n)
    (hx1 : x ≠ Ev.sleep 1) (hx2 : x ≠ Ev.clickCaptcha) (hx3 : x ≠ Ev.handleCaptchaGui)
    (hx4 : x ≠ Ev.sleep 4) (hx5 : ∀ b, x ≠ Ev.checkAccept b)
    (hx6 : x ≠ Ev.clickAccept)
    (hg : ∀ a b, x ≠ Ev.httpGet a b) (hl : ∀ m, x ≠ Ev.logError m)
    (hnd : x ≠ Ev.newDriver) (hos : ∀ u n, x ≠ Ev.openSecondary u n)
    (hcp : x ≠ Ev.closePrimary) (hcr : x ≠ Ev.cleanupRun)
    (hqd : x ≠ Ev.quitExtraDriver) :
    ∀ r evs st', watch_stream st env cfg fuel = some (r, evs, st') →
      evs.count x = 0 := by
  intro r evs st' h
  have hbody := body_twitch_count_zero st env cfg fuel x hplat h01 h02 h03
    hx1 hx2 hx3 hx4 hx5 hx6 hg hl hnd hos hcp
  unfold watch_stream at h
  split at h
  · simp at h
  · rename_i r0 evs0 st1 heq
    have h0 := hbody r0 evs0 st1 heq
    have hcz := cleanup_count_zero st1 x hcr hqd
    cases hcl : _cleanup st1 with
    | mk cevs st2 =>
        rw [hcl] at h hcz
        simp only at hcz
        simp only [] at h
        split at h <;>
          (simp only [Option.some.injEq, Prod.mk.injEq] at h
           obtain ⟨-, h2, -⟩ := h
           subst h2
           simp [List.count_append, List.count_cons, h0, hcz, hl])

/-! ## Claim C4: secondary session and the polling loop -/

/-- **C4, counterexample.**  On the twitch variant, with liveness confirmed
and the player element visible at every check, the session still performs no
polling: the run opens the secondary session, runs the challenge sequence on
it, and terminates immediately — no `sleep(10)` and no visibility check ever
happens, although the player element stays visible. -/
theorem secondary_active_poll_counterexample :
    liveForeverEnv.playerVisible 0 = true
    ∧ watch_stream {} liveForeverEnv twitch_config 5
        = some (Except.ok (), twitchLiveTrace,
                { browser := some (), secondary_browser := none })
    ∧ Ev.openSecondary "https://www.twitch.tv/brutalles" 5 ∈ twitchLiveTrace
    ∧ Ev.sleep 10 ∉ twitchLiveTrace
    ∧ Ev.checkPlayerVisible true ∉ twitchLiveTrace
    ∧ Ev.checkPlayerVisible false ∉ twitchLiveTrace :=
  ⟨rfl, rfl, by decide, by decide, by decide, by decide⟩

/-- **C4 (amended).**  On the kick variant, once the session enters
`SecondaryActive` it opens a second browser session at the same target
address (`stream_url`), runs the same challenge-handling sequence on it, and
then polls: while the primary player element remains visible it sleeps 10
time units and re-checks, exiting the loop at the first check that reports
the element gone.  On the twitch variant, after the secondary session is set
up there is no polling at all: the run performs no visibility check and no
10-unit sleep. -/
theorem secondary_active_poll (st : StreamViewer) (env : WatchEnv)
    (cfg : StreamPlatformConfig) (fuel j : Nat) :
    (∀ r evs st', cfg.platform = StreamPlatform.twitch →
        watch_stream st env cfg fuel = some (r, evs, st') →
        Ev.sleep 10 ∉ evs ∧ Ev.checkPlayerVisible true ∉ evs
          ∧ Ev.checkPlayerVisible false ∉ evs)
    ∧ (∀ evs st', cfg.platform = StreamPlatform.kick →
        env.playerVisible 0 = true →
        1 ≤ j → env.playerVisible j = false →
        (∀ i, 1 ≤ i → i < j → env.playerVisible i = true) →
        j ≤ fuel →
        watch_stream st env cfg fuel = some (Except.ok (), evs, st') →
        Ev.openPrimary cfg.stream_url 4 ∈ evs
        ∧ Ev.openSecondary cfg.stream_url 5 ∈ evs
        ∧ evs.count Ev.clickCaptcha = 2
        ∧ evs.count (Ev.sleep 10) = j - 1
        ∧ evs.count (Ev.checkPlayerVisible true) = j
        ∧ evs.count (Ev.checkPlayerVisible false) = 1) := by
  constructor
  · intro r evs st' hplat h
    refine ⟨?_, ?_, ?_⟩ <;> rw [← List.count_eq_zero]
    · exact watch_twitch_count_zero st env cfg fuel (Ev.sleep 10) hplat
        (by simp) (by intro p; simp) (by intro u n; simp) (by simp) (by simp)
        (by simp) (by simp) (by intro b; simp) (by simp) (by intro a b; simp)
        (by intro m; simp) (by simp) (by intro u n; simp) (by simp) (by simp)
        (by simp) r evs st' h
    · exact watch_twitch_count_zero st env cfg fuel (Ev.checkPlayerVisible true) hplat
        (by simp) (by intro p; simp) (by intro u n; simp) (by simp) (by simp)
        (by simp) (by simp) (by intro b; simp) (by simp) (by intro a b; simp)
        (by intro m; simp) (by simp) (by intro u n; simp) (by simp) (by simp)
        (by simp) r evs st' h
    · exact watch_twitch_count_zero st env cfg fuel (Ev.checkPlayerVisible false) hplat
        (by simp) (by intro p; simp) (by intro u n; simp) (by simp) (by simp)
        (by simp) (by simp) (by intro b; simp) (by simp) (by intro a b; simp)
        (by intro m; simp) (by simp) (by intro u n; simp) (by simp) (by simp)
        (by simp) r evs st' h
  · intro evs st' hplat hv0 hj1 hjF hall hjfuel h
    obtain ⟨bevs, st1, hbody, hevs, -⟩ := watch_ok_decomp st env cfg fuel evs st' h
    obtain ⟨ievs, kevs, hinit, hkick, hbevs⟩ :=
      body_kick_ok_decomp st env cfg fuel bevs st1 hplat hbody
    obtain ⟨sevs, pevs, hsetup, hpoll, hkevs⟩ :=
      kick_ok_decomp _ env cfg fuel kevs st1 hv0 hkick
    have hpt : pevs = pollTrace (j - 1) := by
      have he := pollLoop_exit env.playerVisible j hjF fuel 1 hj1
        (fun i hi1 hi2 => hall i hi1 hi2) (by omega)
      exact Option.some.inj (hpoll.symm.trans he)
    have hiz : ∀ x : Ev, x ≠ Ev.sleep 1 → x ≠ Ev.clickCaptcha →
        x ≠ Ev.handleCaptchaGui → x ≠ Ev.sleep 4 → (∀ b, x ≠ Ev.checkAccept b) →
        x ≠ Ev.clickAccept → (∀ u n, x ≠ Ev.openPrimary u n) →
        ievs.count x = 0 := by
      intro x hx1 hx2 hx3 hx4 hx5 hx6 hop
      have hz := init_count_zero env cfg x hop hx1 hx2 hx3 hx4 hx5 hx6
      rw [hinit] at hz
      exact hz
    have hsz : ∀ x : Ev, x ≠ Ev.sleep 1 → x ≠ Ev.clickCaptcha →
        x ≠ Ev.handleCaptchaGui → x ≠ Ev.sleep 4 → (∀ b, x ≠ Ev.checkAccept b) →
        x ≠ Ev.clickAccept → x ≠ Ev.newDriver → (∀ u n, x ≠ Ev.openSecondary u n) →
        sevs.count x = 0 := by
      intro x hx1 hx2 hx3 hx4 hx5 hx6 hnd hos
      have hz := setup_count_zero { st with browser := some () } env cfg x
        hnd hos hx1 hx2 hx3 hx4 hx5 hx6
      rw [hsetup] at hz
      exact hz
    have hic := init_ok_decomp env cfg ievs hinit
    have hsc := setup_ok_decomp _ env cfg sevs st1 hsetup
    have hcz : ∀ x : Ev, x ≠ Ev.cleanupRun → x ≠ Ev.quitExtraDriver →
        ((_cleanup st1).1).count x = 0 := fun x hq1 hq2 =>
      cleanup_count_zero st1 x hq1 hq2
    subst hevs hbevs hkevs hpt
    refine ⟨?_, ?_, ?_, ?_, ?_, ?_⟩
    · simp [List.mem_append, hic.2]
    · simp [List.mem_append, hsc.2]
    · have i1 := hic.1
      have s1 := hsc.1
      have p0 := pollTrace_count_zero (j - 1) Ev.clickCaptcha (by simp) (by intro b; simp)
      have c0 := hcz Ev.clickCaptcha (by simp) (by simp)
      simp [List.count_append, List.count_cons, i1, s1, p0, c0]
    · have i0 := hiz (Ev.sleep 10) (by simp) (by simp) (by simp) (by simp)
        (by intro b; simp) (by simp) (by intro u n; simp)
      have s0 := hsz (Ev.sleep 10) (by simp) (by simp) (by simp) (by simp)
        (by intro b; simp) (by simp) (by simp) (by intro u n; simp)
      have p1 := pollTrace_count_sleep (j - 1)
      have c0 := hcz (Ev.sleep 10) (by simp) (by simp)
      simp [List.count_append, List.count_cons, i0, s0, p1, c0]
    · have i0 := hiz (Ev.checkPlayerVisible true) (by simp) (by simp) (by simp)
        (by simp) (by intro b; simp) (by simp) (by intro u n; simp)
      have s0 := hsz (Ev.checkPlayerVisible true) (by simp) (by simp) (by simp)
        (by simp) (by intro b; simp) (by simp) (by simp) (by intro u n; simp)
      have p1 := pollTrace_count_visible (j - 1)
      have c0 := hcz (Ev.checkPlayerVisible true) (by simp) (by simp)
      simp [List.count_append, List.count_cons, i0, s0, p1, c0]
      omega
    · have i0 := hiz (Ev.checkPlayerVisible false) (by simp) (by simp) (by simp)
        (by simp) (by intro b; simp) (by simp) (by intro u n; simp)
      have s0 := hsz (Ev.checkPlayerVisible false) (by simp) (by simp) (by simp)
        (by simp) (by intro b; simp) (by simp) (by simp) (by intro u n; simp)
      have p1 := pollTrace_count_gone (j - 1)
      have c0 := hcz (Ev.checkPlayerVisible false) (by simp) (by simp)
      simp [List.count_append, List.count_cons, i0, s0, p1, c0]

/-- Witness for C4's amended theorem: a kick run whose player element is
first reported gone at check 3 polls with two 10-unit sleeps and stops. -/
theorem secondary_active_poll_witness :
    Ev.openPrimary kick_config.stream_url 4 ∈ kickLiveTrace
    ∧ Ev.openSecondary kick_config.stream_url 5 ∈ kickLiveTrace
    ∧ kickLiveTrace.count Ev.clickCaptcha = 2
    ∧ kickLiveTrace.count (Ev.sleep 10) = 3 - 1
    ∧ kickLiveTrace.count (Ev.checkPlayerVisible true) = 3
    ∧ kickLiveTrace.count (Ev.checkPlayerVisible false) = 1 :=
  (secondary_active_poll {} liveUntil3Env kick_config 10 3).2 kickLiveTrace
    { browser := some (), secondary_browser := none }
    rfl rfl (by decide) (by decide)
    (by
      intro i h1 h2
      simp only [liveUntil3Env, liveForeverEnv]
      exact decide_eq_true h2)
    (by decide) rfl

/-! ## Claim C10: the liveness decision ignores base_url and caller config -/

lemma head?_mem {α : Type} {l : List α} {a : α} (h : l.head? = some a) : a ∈ l := by
  cases l with
  | nil => simp at h
  | cons x xs =>
      simp only [List.head?_cons, Option.some.injEq] at h
      subst h
      exact List.mem_cons_self _ _

lemma check_events_head (http : String → HttpOutcome) (u : String) (tc : TwitchConfig) :
    (check_twitch_stream http u tc).events.head?
      = some (Ev.httpGet (twitchStreamUrl u) tc.client_id) := by
  rw [check_twitch_stream_eq]
  unfold check_twitch_stream_body requestsGetRaiseForStatus
  cases h : http (twitchStreamUrl u) with
  | response status body =>
      by_cases hs : 400 ≤ status ∧ status < 600 <;> simp [h, hs]
  | transportError m => simp [h]

lemma setup_newDriver_mem (st : StreamViewer) (env : WatchEnv)
    (cfg : StreamPlatformConfig) :
    Ev.newDriver ∈ (_setup_secondary_viewer st env cfg).2.1 := by
  unfold _setup_secondary_viewer
  cases env.newDriverOutcome with
  | error ex => simp
  | ok _ =>
      cases env.navSecondary with
      | error ex => simp
      | ok _ => simp

lemma twitch_watcher_newDriver (st : StreamViewer) (env : WatchEnv)
    (cfg : StreamPlatformConfig) :
    (Ev.newDriver ∈ (_watch_twitch_stream st env cfg).2.1)
      ↔ (check_twitch_stream env.http cfg.username {}).result = Except.ok true := by
  obtain ⟨bb, hb⟩ := check_twitch_stream_body_fst_ok env.http cfg.username {}
  have hndmem : Ev.newDriver ∉ (check_twitch_stream_body env.http cfg.username {}).2 := by
    have h0 := check_events_count_zero env.http cfg.username {} Ev.newDriver
      (by intro a b; simp) (by intro m; simp)
    rw [check_twitch_stream_eq] at h0
    exact List.count_eq_zero.mp h0
  unfold _watch_twitch_stream
  simp only [check_twitch_stream_eq, hb]
  cases bb
  · simp [hndmem]
  · simp [setup_newDriver_mem]

lemma twitch_watcher_get_mem (st : StreamViewer) (env : WatchEnv)
    (cfg : StreamPlatformConfig) :
    Ev.httpGet (twitchStreamUrl cfg.username) "kimne78kx3ncx6brgo4mv6wki5h1ko"
      ∈ (_watch_twitch_stream st env cfg).2.1 := by
  have hmem : Ev.httpGet (twitchStreamUrl cfg.username) "kimne78kx3ncx6brgo4mv6wki5h1ko"
      ∈ (check_twitch_stream env.http cfg.username {}).events :=
    head?_mem (check_events_head env.http cfg.username {})
  obtain ⟨bb, hb⟩ := check_twitch_stream_body_fst_ok env.http cfg.username {}
  rw [check_twitch_stream_eq] at hmem
  unfold _watch_twitch_stream
  simp only [check_twitch_stream_eq, hb]
  cases bb
  · simpa using hmem
  · simp only [if_true, List.mem_append]
    exact Or.inl (by simpa using hmem)

/-- **C10.**  The twitch liveness decision is independent of the
`StreamPlatformConfig.base_url` and of any caller-supplied `TwitchConfig`:
`check_twitch_stream` always issues its GET to
`https://www.twitch.tv/<username>` with the configured `Client-ID` header;
`_watch_twitch_stream` performs that GET with the hard-coded default
`TwitchConfig`; and two `_watch_twitch_stream` runs that differ only in
`base_url` make the same secondary-session decision. -/
theorem twitch_liveness_independent (env : WatchEnv) (st st2 : StreamViewer)
    (u b b2 : String) :
    (∀ tc : TwitchConfig,
        (check_twitch_stream env.http u tc).events.head?
          = some (Ev.httpGet (twitchStreamUrl u) tc.client_id))
    ∧ Ev.httpGet (twitchStreamUrl u) "kimne78kx3ncx6brgo4mv6wki5h1ko"
        ∈ (_watch_twitch_stream st env
            { platform := StreamPlatform.twitch, base_url := b, username := u }).2.1
    ∧ ((Ev.newDriver ∈ (_watch_twitch_stream st env
            { platform := StreamPlatform.twitch, base_url := b, username := u }).2.1)
        ↔ (Ev.newDriver ∈ (_watch_twitch_stream st2 env
            { platform := StreamPlatform.twitch, base_url := b2, username := u }).2.1)) :=
  ⟨fun tc => check_events_head env.http u tc,
   twitch_watcher_get_mem st env
     { platform := StreamPlatform.twitch, base_url := b, username := u },
   (twitch_watcher_newDriver st env
       { platform := StreamPlatform.twitch, base_url := b, username := u }).trans
     (twitch_watcher_newDriver st2 env
       { platform := StreamPlatform.twitch, base_url := b2, username := u }).symm⟩

/-! ## Claim C7: top-level orchestration -/

/-- **C7.**  `main` attempts the kick target end-to-end; if that run raises a
`StreamViewerException` it is logged and swallowed (the process exits
normally) and the twitch target is never attempted; any other raised error
propagates unchanged, and in particular no `StreamViewerException` ever
escapes `main`.  When the kick run completes, `main` performs an independent
fresh liveness check for the twitch username and runs the state machine for
the twitch target exactly when that check is positive. -/
theorem main_orchestration (env : MainEnv) (fuel : Nat) :
    (∀ ex evs, main env fuel = some (Except.error ex, evs) →
        ∀ m, ex ≠ PyExc.streamViewerException m)
    ∧ (∀ m evs stk,
        watch_stream {} env.kickEnv kick_config fuel
            = some (Except.error (PyExc.streamViewerException m), evs, stk) →
        main env fuel
          = some (Except.ok (),
              evs ++ [Ev.logError ("Stream viewing failed: " ++ m)]))
    ∧ (∀ ex evs stk,
        watch_stream {} env.kickEnv kick_config fuel
            = some (Except.error ex, evs, stk) →
        (∀ m, ex ≠ PyExc.streamViewerException m) →
        main env fuel = some (Except.error ex, evs))
    ∧ (∀ evs stk,
        watch_stream {} env.kickEnv kick_config fuel
            = some (Except.ok (), evs, stk) →
        ((check_twitch_stream env.mainHttp "brutalles" {}).result = Except.ok false →
            main env fuel
              = some (Except.ok (),
                  evs ++ (check_twitch_stream env.mainHttp "brutalles" {}).events))
        ∧ (∀ r2 evs2 st2,
            (check_twitch_stream env.mainHttp "brutalles" {}).result = Except.ok true →
            watch_stream stk env.twitchEnv twitch_config fuel
                = some (r2, evs2, st2) →
            main_body env fuel
              = some (r2,
                  evs ++ (check_twitch_stream env.mainHttp "brutalles" {}).events
                    ++ evs2, st2))) := by
  refine ⟨?_, ?_, ?_, ?_⟩
  · intro ex evs hmain m heq
    subst heq
    unfold main at hmain
    cases hb : main_body env fuel with
    | none => rw [hb] at hmain; simp at hmain
    | some trip =>
        rw [hb] at hmain
        obtain ⟨r0, evs0, st0⟩ := trip
        cases r0 with
        | ok u => simp at hmain
        | error e => cases e <;> simp at hmain
  · intro m evs stk hk
    simp [main, main_body, hk]
  · intro ex evs stk hk hne
    cases ex with
    | streamViewerException m => exact absurd rfl (hne m)
    | retryError e => simp [main, main_body, hk]
    | requestException m => simp [main, main_body, hk]
    | otherError m => simp [main, main_body, hk]
  · intro evs stk hk
    constructor
    · intro hlf
      simp [main, main_body, hk, twitch_config, hlf]
    · intro r2 evs2 st2 hlt h2
      simp only [twitch_config] at h2
      simp [main_body, hk, twitch_config, hlt, h2]

/-- Witness for C7: a kick run that raises a `StreamViewerException` during
navigation is logged and swallowed, and `main` exits normally. -/
theorem main_orchestration_witness :
    main mainEnvSve 1
      = some (Except.ok (),
          [Ev.sbCreate, Ev.infoAttempt StreamPlatform.kick,
           Ev.openPrimary "https://kick.com/brutalles" 4, Ev.closePrimary,
           Ev.logError "Error during stream viewing: boom", Ev.cleanupRun]
          ++ [Ev.logError ("Stream viewing failed: " ++ "boom")]) :=
  (main_orchestration mainEnvSve 1).2.1 "boom"
    [Ev.sbCreate, Ev.infoAttempt StreamPlatform.kick,
     Ev.openPrimary "https://kick.com/brutalles" 4, Ev.closePrimary,
     Ev.logError "Error during stream viewing: boom", Ev.cleanupRun]
    { browser := some (), secondary_browser := none } rfl

end ViewView
